import Mathlib

/-!
Shallow embedding of the ADV7180 video decoder driver
(src/drivers/staging/media/imx6/capture/adv7180.c).

The i2c bus transport is modelled as an oracle `Bus` of pure functions:
`readReg` returns the byte read or the (negative errno) error code, and
`writeReg` returns success or the error code, mirroring
`adv7180_read_reg` / `adv7180_write_reg` in the source.  Each driver
operation is translated into a pure function on an explicit
`SensorState` record (the mutable fields of `struct adv7180_dev`),
returning the new state, the C return value, and the trace of register
accesses it attempted, in order.
-/

/-! Register addresses and bit masks, from the `#define` block of the source. -/

def ADV7180_INPUT_CTL : Nat := 0x00

def ADV7180_STATUS_1 : Nat := 0x10

def ADV7180_IN_LOCK : Nat := 1

def ADV7180_LOST_LOCK : Nat := 2

def ADV7180_FSC_LOCK : Nat := 4

def ADV7180_AD_RESULT_BIT : Nat := 4

def ADV7180_AD_RESULT_MASK : Nat := 0x70

def ADV7180_CONTRAST : Nat := 0x08

def ADV7180_BRIGHTNESS : Nat := 0x0a

def ADV7180_HUE_REG : Nat := 0x0b

def ADV7180_IDENT : Nat := 0x11

def ADV7180_SD_SATURATION_CB : Nat := 0xe3

def ADV7180_SD_SATURATION_CR : Nat := 0xe4

def ADV7180_PWR_MNG : Nat := 0x0f

def ADV7180_INT_STATUS_1 : Nat := 0x42

def ADV7180_INT_SD_LOCK : Nat := 1

def ADV7180_INT_SD_UNLOCK : Nat := 2

def ADV7180_INT_CLEAR_1 : Nat := 0x43

def ADV7180_INT_RAW_STATUS_3 : Nat := 0x49

def ADV7180_INT_SD_V_LOCK : Nat := 2

def ADV7180_INT_STATUS_3 : Nat := 0x4a

def ADV7180_INT_SD_V_LOCK_CHNG : Nat := 2

def ADV7180_INT_SD_AD_CHNG : Nat := 8

def ADV7180_INT_CLEAR_3 : Nat := 0x4b

/-! V4L2 standard identifiers, from the external header
include/uapi/linux/videodev2.h (the composed values the driver uses). -/

def V4L2_STD_PAL : Nat := 0xff

def V4L2_STD_PAL_M : Nat := 0x100

def V4L2_STD_PAL_N : Nat := 0x200

def V4L2_STD_PAL_60 : Nat := 0x800

def V4L2_STD_NTSC : Nat := 0xb000

def V4L2_STD_NTSC_443 : Nat := 0x4000

def V4L2_STD_SECAM : Nat := 0xff0000

/-! Errno values used by the driver (from the external kernel headers). -/

def EPERM : Int := 1

def EIO_errno : Int := 5

def EINVAL : Int := 22

/-- `enum { ADV7180_NTSC = 0, ADV7180_PAL }`: index into `video_fmts`. -/
def ADV7180_NTSC : Nat := 0

/-- Second entry of the standards enumeration. -/
def ADV7180_PAL : Nat := 1

/-- `struct video_fmt_t`: v4l2 id, name, raw and crop rectangles. -/
structure VideoFmt where
  v4l2_id : Nat
  name : String
  rawWidth : Nat
  rawHeight : Nat
  cropWidth : Nat
  cropHeight : Nat
  cropTop : Nat
  cropLeft : Nat
  deriving DecidableEq

/-- `video_fmts[]`: NTSC (raw 720x525, crop 720x480) and PAL
(raw 720x625, crop 720x576). -/
def video_fmts : List VideoFmt :=
  [⟨V4L2_STD_NTSC, "NTSC", 720, 525, 720, 480, 13, 0⟩,
   ⟨V4L2_STD_PAL, "PAL", 720, 625, 720, 576, 0, 0⟩]

/-- Array indexing `video_fmts[i]` (only indices 0 and 1 are ever used). -/
def video_fmt_at (i : Nat) : VideoFmt :=
  video_fmts.getD i ⟨0, "", 0, 0, 0, 0, 0, 0⟩

/-- The mutable fields of `struct adv7180_dev` relevant to the modelled
operations.  `pwdn_gpio_valid` abstracts `gpio_is_valid(sensor->pwdn_gpio)`. -/
structure SensorState where
  is_on : Bool
  locked : Bool
  brightness : Int
  hue : Int
  contrast : Int
  saturation : Int
  std_id : Nat
  video_idx : Nat
  fmtWidth : Nat
  fmtHeight : Nat
  current_input : Nat
  pwdn_gpio_valid : Bool
  deriving DecidableEq

/-- The i2c register-access oracle: reads yield a byte or a (negative
errno) error, writes yield success or an error, as in `adv7180_read_reg`
and `adv7180_write_reg`. -/
structure Bus where
  readReg : Nat → Except Int Nat
  writeReg : Nat → Nat → Except Int Unit

/-- The boolean assigned to `sensor->locked` in `adv7180_update_lock_status`:
`(stat1 & ADV7180_IN_LOCK) && (stat1 & ADV7180_FSC_LOCK) &&
(int_raw_stat3 & ADV7180_INT_SD_V_LOCK)`. -/
def computeLocked (stat1 raw3 : Nat) : Bool :=
  decide (stat1 &&& ADV7180_IN_LOCK ≠ 0) &&
  decide (stat1 &&& ADV7180_FSC_LOCK ≠ 0) &&
  decide (raw3 &&& ADV7180_INT_SD_V_LOCK ≠ 0)

/-- The boolean assigned to `*status_change` in `adv7180_update_lock_status`:
`(int_stat1 & SD_LOCK) || (int_stat1 & SD_UNLOCK) ||
(int_stat3 & SD_V_LOCK_CHNG)`. -/
def lockStatusChange (int_stat1 int_stat3 : Nat) : Bool :=
  decide (int_stat1 &&& ADV7180_INT_SD_LOCK ≠ 0) ||
  decide (int_stat1 &&& ADV7180_INT_SD_UNLOCK ≠ 0) ||
  decide (int_stat3 &&& ADV7180_INT_SD_V_LOCK_CHNG ≠ 0)

/-- The `switch (ad_result)` of `adv7180_get_autodetect_std`, mapping the
3-bit autodetect code to `(std, idx)`.  The wildcard arm returns the C
local variables' initial values (`std = V4L2_STD_PAL`, `idx = ADV7180_PAL`);
it is unreachable because the masked code is below 8. -/
def resolveStd (ad_result : Nat) : Nat × Nat :=
  match ad_result with
  | 4 => (V4L2_STD_PAL, ADV7180_PAL)
  | 2 => (V4L2_STD_PAL_M, ADV7180_NTSC)
  | 6 => (V4L2_STD_PAL_N, ADV7180_PAL)
  | 3 => (V4L2_STD_PAL_60, ADV7180_NTSC)
  | 0 => (V4L2_STD_NTSC, ADV7180_NTSC)
  | 1 => (V4L2_STD_NTSC_443, ADV7180_NTSC)
  | 5 => (V4L2_STD_SECAM, ADV7180_PAL)
  | 7 => (V4L2_STD_SECAM, ADV7180_NTSC)
  | _ => (V4L2_STD_PAL, ADV7180_PAL)

/-- Result of `adv7180_get_autodetect_std`: the (possibly updated) sensor
state, the C return value paired with the `*status_change` out-parameter
(`Except.ok change` on return 0, `Except.error e` on an error return), and
the registers it attempted to read. -/
structure StdResult where
  state : SensorState
  res : Except Int Bool
  reads : List Nat

/-- `adv7180_get_autodetect_std`: sets `*status_change = false`; if the
device is not locked, returns 0 immediately; otherwise reads STATUS_1,
extracts the AD_RESULT bits, resolves the standard, and if it differs from
the stored one updates `video_idx`, `std_id` and the raw frame geometry
from `video_fmts`, reporting a status change. -/
def adv7180_get_autodetect_std (bus : Bus) (s : SensorState) : StdResult :=
  if s.locked = false then
    ⟨s, Except.ok false, []⟩
  else
    match bus.readReg ADV7180_STATUS_1 with
    | Except.error e => ⟨s, Except.error e, [ADV7180_STATUS_1]⟩
    | Except.ok stat1 =>
      let ad_result := (stat1 &&& ADV7180_AD_RESULT_MASK) >>> ADV7180_AD_RESULT_BIT
      let std := (resolveStd ad_result).1
      let idx := (resolveStd ad_result).2
      if std ≠ s.std_id then
        ⟨{ s with
             video_idx := idx
             std_id := std
             fmtWidth := (video_fmt_at idx).rawWidth
             fmtHeight := (video_fmt_at idx).rawHeight },
         Except.ok true, [ADV7180_STATUS_1]⟩
      else
        ⟨s, Except.ok false, [ADV7180_STATUS_1]⟩

/-- Result of `adv7180_update_lock_status`: new state, C return value
paired with the `*status_change` out-parameter, and the register reads and
writes attempted, in order (a failing access is recorded, accesses after
an early `return` are not). -/
structure LockResult where
  state : SensorState
  res : Except Int Bool
  reads : List Nat
  writes : List (Nat × Nat)

/-- `adv7180_update_lock_status`: read STATUS_1; switch to the interrupt
register map (write 0x20 to 0x0E); read INT_STATUS_1 and INT_STATUS_3;
write them back to the clear registers; read INT_RAW_STATUS_3; switch back
to the normal map (write 0x00 to 0x0E).  Each access uses the
`ADV7180_READ_REG` / `ADV7180_WRITE_REG` macros, which return the error
immediately on failure; `*status_change` and `sensor->locked` are assigned
only after every access has succeeded. -/
def adv7180_update_lock_status (bus : Bus) (s : SensorState) : LockResult :=
  match bus.readReg ADV7180_STATUS_1 with
  | Except.error e => ⟨s, Except.error e, [ADV7180_STATUS_1], []⟩
  | Except.ok stat1 =>
    match bus.writeReg 0x0E 0x20 with
    | Except.error e => ⟨s, Except.error e, [ADV7180_STATUS_1], [(0x0E, 0x20)]⟩
    | Except.ok _ =>
      match bus.readReg ADV7180_INT_STATUS_1 with
      | Except.error e =>
        ⟨s, Except.error e, [ADV7180_STATUS_1, ADV7180_INT_STATUS_1], [(0x0E, 0x20)]⟩
      | Except.ok int_stat1 =>
        match bus.readReg ADV7180_INT_STATUS_3 with
        | Except.error e =>
          ⟨s, Except.error e,
           [ADV7180_STATUS_1, ADV7180_INT_STATUS_1, ADV7180_INT_STATUS_3],
           [(0x0E, 0x20)]⟩
        | Except.ok int_stat3 =>
          match bus.writeReg ADV7180_INT_CLEAR_1 int_stat1 with
          | Except.error e =>
            ⟨s, Except.error e,
             [ADV7180_STATUS_1, ADV7180_INT_STATUS_1, ADV7180_INT_STATUS_3],
             [(0x0E, 0x20), (ADV7180_INT_CLEAR_1, int_stat1)]⟩
          | Except.ok _ =>
            match bus.writeReg ADV7180_INT_CLEAR_3 int_stat3 with
            | Except.error e =>
              ⟨s, Except.error e,
               [ADV7180_STATUS_1, ADV7180_INT_STATUS_1, ADV7180_INT_STATUS_3],
               [(0x0E, 0x20), (ADV7180_INT_CLEAR_1, int_stat1),
                (ADV7180_INT_CLEAR_3, int_stat3)]⟩
            | Except.ok _ =>
              match bus.readReg ADV7180_INT_RAW_STATUS_3 with
              | Except.error e =>
                ⟨s, Except.error e,
                 [ADV7180_STATUS_1, ADV7180_INT_STATUS_1, ADV7180_INT_STATUS_3,
                  ADV7180_INT_RAW_STATUS_3],
                 [(0x0E, 0x20), (ADV7180_INT_CLEAR_1, int_stat1),
                  (ADV7180_INT_CLEAR_3, int_stat3)]⟩
              | Except.ok int_raw_stat3 =>
                match bus.writeReg 0x0E 0x00 with
                | Except.error e =>
                  ⟨s, Except.error e,
                   [ADV7180_STATUS_1, ADV7180_INT_STATUS_1, ADV7180_INT_STATUS_3,
                    ADV7180_INT_RAW_STATUS_3],
                   [(0x0E, 0x20), (ADV7180_INT_CLEAR_1, int_stat1),
                    (ADV7180_INT_CLEAR_3, int_stat3), (0x0E, 0x00)]⟩
                | Except.ok _ =>
                  ⟨{ s with locked := computeLocked stat1 int_raw_stat3 },
                   Except.ok (lockStatusChange int_stat1 int_stat3),
                   [ADV7180_STATUS_1, ADV7180_INT_STATUS_1, ADV7180_INT_STATUS_3,
                    ADV7180_INT_RAW_STATUS_3],
                   [(0x0E, 0x20), (ADV7180_INT_CLEAR_1, int_stat1),
                    (ADV7180_INT_CLEAR_3, int_stat3), (0x0E, 0x00)]⟩

/-- `adv7180_interrupt`: calls `adv7180_update_lock_status` then
`adv7180_get_autodetect_std` (return values ignored) and notifies iff
`lock_status_change || std_change`.  The local `lock_status_change` is
declared without an initializer and `adv7180_update_lock_status` assigns
its out-parameter only after all register accesses succeed, so on an error
return the local keeps its indeterminate stack value, modelled here by the
parameter `garbage`.  `std_change` is always assigned, because
`adv7180_get_autodetect_std` sets `*status_change = false` before any
fallible access.  Returns the new state and whether the
`DECODER_STATUS_CHANGE_NOTIFY` notification is emitted. -/
def adv7180_interrupt (bus : Bus) (s : SensorState) (garbage : Bool) :
    SensorState × Bool :=
  let lr := adv7180_update_lock_status bus s
  let lock_status_change :=
    match lr.res with
    | Except.ok b => b
    | Except.error _ => garbage
  let sr := adv7180_get_autodetect_std bus lr.state
  let std_change :=
    match sr.res with
    | Except.ok b => b
    | Except.error _ => false
  (sr.state, lock_status_change || std_change)

/-- Hardware side effects of `adv7180_power`, in program order. -/
inductive PwrEvent where
  | gpioSet (value : Nat)
  | sleep5ms
  | regWrite (reg value : Nat)
  deriving DecidableEq

/-- `adv7180_power`: on an off-to-on transition, drive the power-down gpio
high (if present), sleep 5 ms, then write 0x00 to the power-management
register; on an on-to-off transition, write 0x24 then drive the gpio low;
otherwise touch no hardware.  `sensor->is_on = enable` (source field `on`) is assigned in every
case; write errors are ignored (the calls do not use the macro). -/
def adv7180_power (s : SensorState) (enable : Bool) :
    SensorState × List PwrEvent :=
  if enable && !s.is_on then
    ({ s with is_on := enable },
     (if s.pwdn_gpio_valid then [PwrEvent.gpioSet 1] else []) ++
       [PwrEvent.sleep5ms, PwrEvent.regWrite ADV7180_PWR_MNG 0x00])
  else if !enable && s.is_on then
    ({ s with is_on := enable },
     PwrEvent.regWrite ADV7180_PWR_MNG 0x24 ::
       (if s.pwdn_gpio_valid then [PwrEvent.gpioSet 0] else []))
  else
    ({ s with is_on := enable }, [])

/-- The `u8` conversion applied to an `int` value (C implicit conversion
to an 8-bit unsigned integer). -/
def u8ofInt (v : Int) : Nat := (v.emod 256).toNat

/-- The `ctrl->id` cases handled by `adv7180_s_ctrl`.  `unknown` is the
`default:` arm (returns `-EPERM`); the white-balance .. vflip cases are
accepted no-ops. -/
inductive CtrlId where
  | brightness
  | contrast
  | saturation
  | hue
  | autoWhiteBalance
  | doWhiteBalance
  | redBalance
  | blueBalance
  | gamma
  | exposure
  | autogain
  | gain
  | hflip
  | vflip
  | unknown
  deriving DecidableEq

/-- Result of a control-surface call: new state, the C `int` return value
(0 on success, negative errno on failure), and the register writes
attempted in order. -/
structure CtrlResult where
  state : SensorState
  ret : Int
  writes : List (Nat × Nat)

/-- `adv7180_s_ctrl`: each setter converts `ctrl->val` to `u8`, writes the
register(s) through `ADV7180_WRITE_REG` (returning the error on failure
before the mirror assignment), then mirrors the original value into the
sensor state.  Hue writes `-tmp` (two's-complement negation of the `u8`);
saturation writes the same byte to both chroma registers. -/
def adv7180_s_ctrl (bus : Bus) (s : SensorState) (id : CtrlId) (v : Int) :
    CtrlResult :=
  match id with
  | CtrlId.brightness =>
    let tmp := u8ofInt v
    (match bus.writeReg ADV7180_BRIGHTNESS tmp with
     | Except.error e => ⟨s, e, [(ADV7180_BRIGHTNESS, tmp)]⟩
     | Except.ok _ => ⟨{ s with brightness := v }, 0, [(ADV7180_BRIGHTNESS, tmp)]⟩)
  | CtrlId.contrast =>
    let tmp := u8ofInt v
    (match bus.writeReg ADV7180_CONTRAST tmp with
     | Except.error e => ⟨s, e, [(ADV7180_CONTRAST, tmp)]⟩
     | Except.ok _ => ⟨{ s with contrast := v }, 0, [(ADV7180_CONTRAST, tmp)]⟩)
  | CtrlId.saturation =>
    let tmp := u8ofInt v
    (match bus.writeReg ADV7180_SD_SATURATION_CB tmp with
     | Except.error e => ⟨s, e, [(ADV7180_SD_SATURATION_CB, tmp)]⟩
     | Except.ok _ =>
       match bus.writeReg ADV7180_SD_SATURATION_CR tmp with
       | Except.error e =>
         ⟨s, e, [(ADV7180_SD_SATURATION_CB, tmp), (ADV7180_SD_SATURATION_CR, tmp)]⟩
       | Except.ok _ =>
         ⟨{ s with saturation := v }, 0,
          [(ADV7180_SD_SATURATION_CB, tmp), (ADV7180_SD_SATURATION_CR, tmp)]⟩)
  | CtrlId.hue =>
    let tmp := u8ofInt v
    let w := u8ofInt (-(tmp : Int))
    (match bus.writeReg ADV7180_HUE_REG w with
     | Except.error e => ⟨s, e, [(ADV7180_HUE_REG, w)]⟩
     | Except.ok _ => ⟨{ s with hue := v }, 0, [(ADV7180_HUE_REG, w)]⟩)
  | CtrlId.unknown => ⟨s, -EPERM, []⟩
  | _ => ⟨s, 0, []⟩

/-- `struct adv7180_inputs_t`: description and insel bits. -/
structure InputDesc where
  desc : String
  insel : Nat
  deriving DecidableEq

/-- `adv7180_inputs_64_48[]`: the fixed table of analog inputs. -/
def adv7180_inputs_64_48 : List InputDesc :=
  [⟨"ADV7180 Composite on Ain1", 0x00⟩,
   ⟨"ADV7180 Composite on Ain2", 0x01⟩,
   ⟨"ADV7180 Composite on Ain3", 0x02⟩,
   ⟨"ADV7180 Composite on Ain4", 0x03⟩,
   ⟨"ADV7180 Composite on Ain5", 0x04⟩,
   ⟨"ADV7180 Composite on Ain6", 0x05⟩,
   ⟨"ADV7180 Y/C on Ain1/4", 0x06⟩,
   ⟨"ADV7180 Y/C on Ain2/5", 0x07⟩,
   ⟨"ADV7180 Y/C on Ain3/6", 0x08⟩,
   ⟨"ADV7180 YPbPr on Ain1/4/5", 0x09⟩,
   ⟨"ADV7180 YPbPr on Ain2/3/6", 0x0a⟩]

/-- `adv7180_find_input`: linear scan of the input table for a matching
insel selector. -/
def adv7180_find_input (insel : Nat) : Option InputDesc :=
  adv7180_inputs_64_48.find? (fun i => i.insel == insel)

/-- `adv7180_s_routing`: rejects selectors not in the table with `-EINVAL`;
for a known selector it calls `adv7180_write_reg` on the input-control
register, ignores the write's return value, unconditionally assigns
`sensor->current_input = input`, and returns 0. -/
def adv7180_s_routing (bus : Bus) (s : SensorState) (input : Nat) : CtrlResult :=
  match adv7180_find_input input with
  | none => ⟨s, -EINVAL, []⟩
  | some advinput =>
    let _ := bus.writeReg ADV7180_INPUT_CTL advinput.insel
    ⟨{ s with current_input := input }, 0, [(ADV7180_INPUT_CTL, advinput.insel)]⟩

/-! Concrete states and buses used to instantiate the theorems. -/

/-- An unlocked powered device state (standard left at PAL). -/
def sUnlocked : SensorState :=
  ⟨true, false, 0, 0, 0, 0, V4L2_STD_PAL, ADV7180_PAL, 720, 625, 0, true⟩

/-- A locked device state currently believing NTSC, as after an attach
with default-std "ntsc". -/
def sNtscLocked : SensorState :=
  ⟨true, true, 0, 0, 0, 0, V4L2_STD_NTSC, ADV7180_NTSC, 720, 525, 0, true⟩

/-- A bus on which every access succeeds and every read returns 0. -/
def busAllOk : Bus := ⟨fun _ => Except.ok 0, fun _ _ => Except.ok ()⟩

/-- A bus reading 0x40 (autodetect code 4, PAL) from STATUS_1. -/
def busCode4 : Bus :=
  ⟨fun r => if r = ADV7180_STATUS_1 then Except.ok 0x40 else Except.ok 0,
   fun _ _ => Except.ok ()⟩

/-- A bus whose read of STATUS_1 fails with -EIO. -/
def busFailStat1 : Bus :=
  ⟨fun r => if r = ADV7180_STATUS_1 then Except.error (-EIO_errno) else Except.ok 0,
   fun _ _ => Except.ok ()⟩

/-- A bus whose read of INT_STATUS_1 fails with -EIO. -/
def busFailInt1 : Bus :=
  ⟨fun r => if r = ADV7180_INT_STATUS_1 then Except.error (-EIO_errno) else Except.ok 0,
   fun _ _ => Except.ok ()⟩

/-- A bus whose register writes all fail with -EIO. -/
def busWriteFail : Bus :=
  ⟨fun _ => Except.ok 0, fun _ _ => Except.error (-EIO_errno)⟩

/-- A bus on which only the bank-restore write (0x00 to 0x0E) fails. -/
def busFailRestore : Bus :=
  ⟨fun _ => Except.ok 0,
   fun r v => if r == 0x0E && v == 0x00 then Except.error (-EIO_errno) else Except.ok ()⟩

/-- A bus on which only the saturation Cr write fails. -/
def busFailCR : Bus :=
  ⟨fun _ => Except.ok 0,
   fun r _ => if r == ADV7180_SD_SATURATION_CR then Except.error (-EIO_errno)
              else Except.ok ()⟩

/-! Helper lemmas about the bit tests the driver performs. -/

/-- Testing a single-bit mask against a register value is `Nat.testBit`. -/
theorem and_pow_two_ne_zero (n i : Nat) :
    decide (n &&& 2 ^ i ≠ 0) = n.testBit i := by
  have hp : (2 : Nat) ^ i ≠ 0 := pow_ne_zero i (by norm_num)
  rw [Nat.and_two_pow]
  cases h : n.testBit i <;> simp [h, hp]

/-- Mask 1 tests bit 0. -/
theorem and_mask1_ne_zero (n : Nat) : decide (n &&& 1 ≠ 0) = n.testBit 0 :=
  and_pow_two_ne_zero n 0

/-- Mask 2 tests bit 1. -/
theorem and_mask2_ne_zero (n : Nat) : decide (n &&& 2 ≠ 0) = n.testBit 1 :=
  and_pow_two_ne_zero n 1

/-- Mask 4 tests bit 2. -/
theorem and_mask4_ne_zero (n : Nat) : decide (n &&& 4 ≠ 0) = n.testBit 2 :=
  and_pow_two_ne_zero n 2

/-- `computeLocked` in terms of the three source bits. -/
theorem computeLocked_eq_testBit (stat1 raw3 : Nat) :
    computeLocked stat1 raw3 =
      (stat1.testBit 0 && stat1.testBit 2 && raw3.testBit 1) := by
  simp only [computeLocked, ADV7180_IN_LOCK, ADV7180_FSC_LOCK, ADV7180_INT_SD_V_LOCK]
  rw [and_mask1_ne_zero, and_mask4_ne_zero, and_mask2_ne_zero]

/-- C1: `adv7180_update_lock_status` computes the new `locked` value as the
AND of exactly the three bits IN_LOCK (bit 0 of STATUS_1), FSC_LOCK (bit 2
of STATUS_1) and SD_V_LOCK (bit 1 of INT_RAW_STATUS_3): no other bit of
either register affects the result, and flipping any one of the three bits
while the other two are held set toggles the result. -/
theorem locked_is_and_of_three_bits (stat1 raw3 : Nat) :
    (computeLocked stat1 raw3 =
       (stat1.testBit 0 && stat1.testBit 2 && raw3.testBit 1)) ∧
    (∀ s2 r2 : Nat, stat1.testBit 0 = s2.testBit 0 →
       stat1.testBit 2 = s2.testBit 2 → raw3.testBit 1 = r2.testBit 1 →
       computeLocked stat1 raw3 = computeLocked s2 r2) ∧
    (stat1.testBit 2 = true → raw3.testBit 1 = true →
       computeLocked (stat1 ^^^ 1) raw3 = !computeLocked stat1 raw3) ∧
    (stat1.testBit 0 = true → raw3.testBit 1 = true →
       computeLocked (stat1 ^^^ 4) raw3 = !computeLocked stat1 raw3) ∧
    (stat1.testBit 0 = true → stat1.testBit 2 = true →
       computeLocked stat1 (raw3 ^^^ 2) = !computeLocked stat1 raw3) := by
  have e10 : (1 : Nat).testBit 0 = true := by decide
  have e12 : (1 : Nat).testBit 2 = false := by decide
  have e40 : (4 : Nat).testBit 0 = false := by decide
  have e42 : (4 : Nat).testBit 2 = true := by decide
  have e21 : (2 : Nat).testBit 1 = true := by decide
  refine ⟨computeLocked_eq_testBit stat1 raw3, ?_, ?_, ?_, ?_⟩
  · intro s2 r2 hb0 hb2 hb1
    rw [computeLocked_eq_testBit, computeLocked_eq_testBit, hb0, hb2, hb1]
  · intro hb2 hb1
    rw [computeLocked_eq_testBit, computeLocked_eq_testBit]
    simp only [Nat.testBit_xor, e10, e12, hb2, hb1, Bool.xor_false, Bool.xor_true,
      Bool.and_true]
  · intro hb0 hb1
    rw [computeLocked_eq_testBit, computeLocked_eq_testBit]
    simp only [Nat.testBit_xor, e40, e42, hb0, hb1, Bool.xor_false, Bool.xor_true,
      Bool.and_true, Bool.true_and]
  · intro hb0 hb2
    rw [computeLocked_eq_testBit, computeLocked_eq_testBit]
    simp only [Nat.testBit_xor, e21, hb0, hb2, Bool.xor_true, Bool.true_and]

/-- Witness for C1: exercises each hypothesis-bearing conjunct on the
concrete register bytes stat1 = 5 (bits 0 and 2 set) and raw3 = 2
(bit 1 set). -/
theorem locked_is_and_of_three_bits_witness :
    (computeLocked 5 2 = computeLocked 21 6) ∧
    (computeLocked (5 ^^^ 1) 2 = !computeLocked 5 2) ∧
    (computeLocked (5 ^^^ 4) 2 = !computeLocked 5 2) ∧
    (computeLocked 5 (2 ^^^ 2) = !computeLocked 5 2) :=
  ⟨(locked_is_and_of_three_bits 5 2).2.1 21 6 (by decide) (by decide) (by decide),
   (locked_is_and_of_three_bits 5 2).2.2.1 (by decide) (by decide),
   (locked_is_and_of_three_bits 5 2).2.2.2.1 (by decide) (by decide),
   (locked_is_and_of_three_bits 5 2).2.2.2.2 (by decide) (by decide)⟩

/-- C2: the autodetect code extracted from bits [6:4] of STATUS_1 is always
in 0..7, and `adv7180_get_autodetect_std` resolves each code per the fixed
table: codes 0,1,2,3,7 to the NTSC table index, codes 4,5,6 to the PAL
table index, with standard ids NTSC, NTSC 4.43, PAL-M, PAL-60, PAL, SECAM,
PAL-N, SECAM respectively. -/
theorem autodetect_code_mapping :
    resolveStd 0 = (V4L2_STD_NTSC, ADV7180_NTSC) ∧
    resolveStd 1 = (V4L2_STD_NTSC_443, ADV7180_NTSC) ∧
    resolveStd 2 = (V4L2_STD_PAL_M, ADV7180_NTSC) ∧
    resolveStd 3 = (V4L2_STD_PAL_60, ADV7180_NTSC) ∧
    resolveStd 4 = (V4L2_STD_PAL, ADV7180_PAL) ∧
    resolveStd 5 = (V4L2_STD_SECAM, ADV7180_PAL) ∧
    resolveStd 6 = (V4L2_STD_PAL_N, ADV7180_PAL) ∧
    resolveStd 7 = (V4L2_STD_SECAM, ADV7180_NTSC) ∧
    (∀ stat1 : Nat,
       (stat1 &&& ADV7180_AD_RESULT_MASK) >>> ADV7180_AD_RESULT_BIT < 8) := by
  refine ⟨rfl, rfl, rfl, rfl, rfl, rfl, rfl, rfl, ?_⟩
  intro stat1
  have h : stat1 &&& ADV7180_AD_RESULT_MASK ≤ ADV7180_AD_RESULT_MASK :=
    Nat.and_le_right
  rw [Nat.shiftRight_eq_div_pow]
  have h2 : (stat1 &&& ADV7180_AD_RESULT_MASK) / 2 ^ ADV7180_AD_RESULT_BIT ≤
      ADV7180_AD_RESULT_MASK / 2 ^ ADV7180_AD_RESULT_BIT :=
    Nat.div_le_div_right h
  simp only [ADV7180_AD_RESULT_MASK, ADV7180_AD_RESULT_BIT] at h2 ⊢
  omega

/-- C3: whenever the device is not locked, `adv7180_get_autodetect_std`
returns success with no status change, reads no registers, and leaves the
whole sensor state unchanged. -/
theorem autodetect_noop_when_unlocked (bus : Bus) (s : SensorState)
    (h : s.locked = false) :
    adv7180_get_autodetect_std bus s = ⟨s, Except.ok false, []⟩ := by
  simp [adv7180_get_autodetect_std, h]

/-- Witness for C3: concrete unlocked state on a bus that would report a
PAL autodetect code. -/
theorem autodetect_noop_when_unlocked_witness :
    sUnlocked.locked = false ∧
    adv7180_get_autodetect_std busCode4 sUnlocked =
      ⟨sUnlocked, Except.ok false, []⟩ :=
  ⟨rfl, autodetect_noop_when_unlocked busCode4 sUnlocked rfl⟩

/-- C4: when the device is locked, `adv7180_get_autodetect_std` reads
STATUS_1 and, if the resolved standard differs from the stored one,
updates `std_id`, `video_idx` and the raw frame geometry from the standard
table and reports a change; if the resolved standard equals the stored one
it reports no change and leaves the state untouched. -/
theorem autodetect_standard_change (bus : Bus) (s : SensorState) (stat1 : Nat)
    (hl : s.locked = true)
    (hr : bus.readReg ADV7180_STATUS_1 = Except.ok stat1) :
    ((resolveStd ((stat1 &&& ADV7180_AD_RESULT_MASK) >>> ADV7180_AD_RESULT_BIT)).1
        ≠ s.std_id →
      adv7180_get_autodetect_std bus s =
        ⟨{ s with
             video_idx :=
               (resolveStd ((stat1 &&& ADV7180_AD_RESULT_MASK) >>>
                  ADV7180_AD_RESULT_BIT)).2
             std_id :=
               (resolveStd ((stat1 &&& ADV7180_AD_RESULT_MASK) >>>
                  ADV7180_AD_RESULT_BIT)).1
             fmtWidth :=
               (video_fmt_at (resolveStd ((stat1 &&& ADV7180_AD_RESULT_MASK) >>>
                  ADV7180_AD_RESULT_BIT)).2).rawWidth
             fmtHeight :=
               (video_fmt_at (resolveStd ((stat1 &&& ADV7180_AD_RESULT_MASK) >>>
                  ADV7180_AD_RESULT_BIT)).2).rawHeight },
         Except.ok true, [ADV7180_STATUS_1]⟩) ∧
    ((resolveStd ((stat1 &&& ADV7180_AD_RESULT_MASK) >>> ADV7180_AD_RESULT_BIT)).1
        = s.std_id →
      adv7180_get_autodetect_std bus s = ⟨s, Except.ok false, [ADV7180_STATUS_1]⟩) := by
  constructor
  · intro hstd
    simp [adv7180_get_autodetect_std, hl, hr, hstd]
  · intro hstd
    simp [adv7180_get_autodetect_std, hl, hr, hstd]

/-- Witness for C4: stored standard NTSC, autodetect code 4 (PAL): the
status changes, the standard becomes PAL and the frame geometry 720x625. -/
theorem autodetect_standard_change_witness :
    sNtscLocked.locked = true ∧
    busCode4.readReg ADV7180_STATUS_1 = Except.ok 0x40 ∧
    adv7180_get_autodetect_std busCode4 sNtscLocked =
      ⟨{ sNtscLocked with
           video_idx := ADV7180_PAL
           std_id := V4L2_STD_PAL
           fmtWidth := 720
           fmtHeight := 625 },
       Except.ok true, [ADV7180_STATUS_1]⟩ := by
  refine ⟨rfl, rfl, ?_⟩
  exact (autodetect_standard_change busCode4 sNtscLocked 0x40 rfl rfl).1 (by decide)

/-- C5 (code bug): `adv7180_interrupt` decides whether to emit the
notification from the local `lock_status_change`, which is left
uninitialized when `adv7180_update_lock_status` fails before assigning its
out-parameter.  On a bus whose STATUS_1 read fails, both refresh calls
return an error (reporting no change), yet the emission of the
notification tracks the indeterminate stack value: with garbage `true` a
notification is emitted, with garbage `false` it is not. -/
theorem interrupt_notify_depends_on_uninitialized_local :
    ((adv7180_interrupt busFailStat1 sNtscLocked true).2 = true) ∧
    ((adv7180_interrupt busFailStat1 sNtscLocked false).2 = false) ∧
    ((adv7180_update_lock_status busFailStat1 sNtscLocked).res =
       Except.error (-EIO_errno)) ∧
    ((adv7180_get_autodetect_std busFailStat1 sNtscLocked).res =
       Except.error (-EIO_errno)) ∧
    ((adv7180_interrupt busFailStat1 sNtscLocked true).1 = sNtscLocked) :=
  ⟨rfl, rfl, rfl, rfl, rfl⟩

/-- C6 counterexample: on a bus whose INT_STATUS_1 read fails after the
bank-select write of 0x20 to 0x0E succeeded, `adv7180_update_lock_status`
returns the read error without attempting the restore write of 0x00 to
0x0E: the claimed best-effort bank restore does not happen. -/
theorem restore_write_not_attempted_on_read_error :
    (adv7180_update_lock_status busFailInt1 sUnlocked).res =
      Except.error (-EIO_errno) ∧
    (0x0E, 0x20) ∈ (adv7180_update_lock_status busFailInt1 sUnlocked).writes ∧
    ¬ (0x0E, 0x00) ∈ (adv7180_update_lock_status busFailInt1 sUnlocked).writes := by
  have hw : (adv7180_update_lock_status busFailInt1 sUnlocked).writes =
      [(0x0E, 0x20)] := rfl
  refine ⟨rfl, ?_, ?_⟩
  · rw [hw]; simp
  · rw [hw]; simp

/-- C6 amended: the restore write of 0x00 to 0x0E is executed only when
every preceding register access succeeded.  If a read of the
interrupt-status registers fails after the bank switch, the operation
returns that error immediately and the restore write is not attempted (the
bank may be left switched); if the restore write itself fails, there is no
prior error, and the restore write's own error is what is returned. -/
theorem lock_status_restore_not_best_effort (bus : Bus) (s : SensorState) :
    (∀ stat1 e, bus.readReg ADV7180_STATUS_1 = Except.ok stat1 →
       bus.writeReg 0x0E 0x20 = Except.ok () →
       bus.readReg ADV7180_INT_STATUS_1 = Except.error e →
       adv7180_update_lock_status bus s =
         ⟨s, Except.error e, [ADV7180_STATUS_1, ADV7180_INT_STATUS_1],
          [(0x0E, 0x20)]⟩) ∧
    (∀ stat1 int_stat1 int_stat3 raw3 e,
       bus.readReg ADV7180_STATUS_1 = Except.ok stat1 →
       bus.writeReg 0x0E 0x20 = Except.ok () →
       bus.readReg ADV7180_INT_STATUS_1 = Except.ok int_stat1 →
       bus.readReg ADV7180_INT_STATUS_3 = Except.ok int_stat3 →
       bus.writeReg ADV7180_INT_CLEAR_1 int_stat1 = Except.ok () →
       bus.writeReg ADV7180_INT_CLEAR_3 int_stat3 = Except.ok () →
       bus.readReg ADV7180_INT_RAW_STATUS_3 = Except.ok raw3 →
       bus.writeReg 0x0E 0x00 = Except.error e →
       adv7180_update_lock_status bus s =
         ⟨s, Except.error e,
          [ADV7180_STATUS_1, ADV7180_INT_STATUS_1, ADV7180_INT_STATUS_3,
           ADV7180_INT_RAW_STATUS_3],
          [(0x0E, 0x20), (ADV7180_INT_CLEAR_1, int_stat1),
           (ADV7180_INT_CLEAR_3, int_stat3), (0x0E, 0x00)]⟩) := by
  constructor
  · intro stat1 e h1 h2 h3
    simp [adv7180_update_lock_status, h1, h2, h3]
  · intro stat1 int_stat1 int_stat3 raw3 e h1 h2 h3 h4 h5 h6 h7 h8
    simp [adv7180_update_lock_status, h1, h2, h3, h4, h5, h6, h7, h8]

/-- Witness for the amended C6: instantiates both conjuncts, on a bus
whose INT_STATUS_1 read fails and on a bus whose restore write fails. -/
theorem lock_status_restore_not_best_effort_witness :
    adv7180_update_lock_status busFailInt1 sUnlocked =
      ⟨sUnlocked, Except.error (-EIO_errno),
       [ADV7180_STATUS_1, ADV7180_INT_STATUS_1], [(0x0E, 0x20)]⟩ ∧
    adv7180_update_lock_status busFailRestore sUnlocked =
      ⟨sUnlocked, Except.error (-EIO_errno),
       [ADV7180_STATUS_1, ADV7180_INT_STATUS_1, ADV7180_INT_STATUS_3,
        ADV7180_INT_RAW_STATUS_3],
       [(0x0E, 0x20), (ADV7180_INT_CLEAR_1, 0), (ADV7180_INT_CLEAR_3, 0),
        (0x0E, 0x00)]⟩ :=
  ⟨(lock_status_restore_not_best_effort busFailInt1 sUnlocked).1
     0 (-EIO_errno) rfl rfl rfl,
   (lock_status_restore_not_best_effort busFailRestore sUnlocked).2
     0 0 0 0 (-EIO_errno) rfl rfl rfl rfl rfl rfl rfl rfl⟩

/-- C7: if any register access fails during `adv7180_update_lock_status`,
the error is returned and the sensor state — in particular `locked` — is
left exactly as it was: `locked` is assigned only after every register
access has succeeded. -/
theorem lock_status_no_partial_mutation (bus : Bus) (s : SensorState) (e : Int)
    (h : (adv7180_update_lock_status bus s).res = Except.error e) :
    (adv7180_update_lock_status bus s).state = s := by
  cases h1 : bus.readReg ADV7180_STATUS_1 with
  | error e1 => simp [adv7180_update_lock_status, h1]
  | ok stat1 =>
    cases h2 : bus.writeReg 0x0E 0x20 with
    | error e2 => simp [adv7180_update_lock_status, h1, h2]
    | ok u2 =>
      cases h3 : bus.readReg ADV7180_INT_STATUS_1 with
      | error e3 => simp [adv7180_update_lock_status, h1, h2, h3]
      | ok int_stat1 =>
        cases h4 : bus.readReg ADV7180_INT_STATUS_3 with
        | error e4 => simp [adv7180_update_lock_status, h1, h2, h3, h4]
        | ok int_stat3 =>
          cases h5 : bus.writeReg ADV7180_INT_CLEAR_1 int_stat1 with
          | error e5 => simp [adv7180_update_lock_status, h1, h2, h3, h4, h5]
          | ok u5 =>
            cases h6 : bus.writeReg ADV7180_INT_CLEAR_3 int_stat3 with
            | error e6 => simp [adv7180_update_lock_status, h1, h2, h3, h4, h5, h6]
            | ok u6 =>
              cases h7 : bus.readReg ADV7180_INT_RAW_STATUS_3 with
              | error e7 =>
                simp [adv7180_update_lock_status, h1, h2, h3, h4, h5, h6, h7]
              | ok raw3 =>
                cases h8 : bus.writeReg 0x0E 0x00 with
                | error e8 =>
                  simp [adv7180_update_lock_status, h1, h2, h3, h4, h5, h6, h7, h8]
                | ok u8 =>
                  simp [adv7180_update_lock_status, h1, h2, h3, h4, h5, h6, h7,
                    h8] at h

/-- Witness for C7: a failing INT_STATUS_1 read returns the error with the
state untouched. -/
theorem lock_status_no_partial_mutation_witness :
    (adv7180_update_lock_status busFailInt1 sNtscLocked).res =
      Except.error (-EIO_errno) ∧
    (adv7180_update_lock_status busFailInt1 sNtscLocked).state = sNtscLocked :=
  ⟨rfl, lock_status_no_partial_mutation busFailInt1 sNtscLocked (-EIO_errno) rfl⟩

/-- A state whose current analog input selection is 3. -/
def sInput3 : SensorState := { sNtscLocked with current_input := 3 }

/-- C8 counterexample: `adv7180_s_routing` ignores the return value of the
input-control register write.  On a bus whose writes all fail, routing to
the valid selector 0 still returns 0 (success) and mutates
`current_input` from 3 to 0: the write failure is neither surfaced nor
does it prevent the mirror update. -/
theorem routing_write_failure_not_surfaced :
    busWriteFail.writeReg ADV7180_INPUT_CTL 0x00 = Except.error (-EIO_errno) ∧
    sInput3.current_input = 3 ∧
    adv7180_s_routing busWriteFail sInput3 0 =
      ⟨{ sInput3 with current_input := 0 }, 0, [(ADV7180_INPUT_CTL, 0x00)]⟩ :=
  ⟨rfl, rfl, rfl⟩

/-- C8 amended: the brightness/contrast/saturation/hue setters surface a
register-write failure as the returned error and leave the mirrored state
field unmutated; input routing rejects selectors absent from the fixed
input table with -EINVAL, leaving the state unchanged and writing nothing;
but for a valid selector, routing ignores the outcome of the
input-control register write, returns 0 and updates `current_input`
unconditionally. -/
theorem control_surface_error_handling (bus : Bus) (s : SensorState) (v : Int) :
    (∀ e, bus.writeReg ADV7180_BRIGHTNESS (u8ofInt v) = Except.error e →
       adv7180_s_ctrl bus s CtrlId.brightness v =
         ⟨s, e, [(ADV7180_BRIGHTNESS, u8ofInt v)]⟩) ∧
    (∀ e, bus.writeReg ADV7180_CONTRAST (u8ofInt v) = Except.error e →
       adv7180_s_ctrl bus s CtrlId.contrast v =
         ⟨s, e, [(ADV7180_CONTRAST, u8ofInt v)]⟩) ∧
    (∀ e, bus.writeReg ADV7180_SD_SATURATION_CB (u8ofInt v) = Except.error e →
       adv7180_s_ctrl bus s CtrlId.saturation v =
         ⟨s, e, [(ADV7180_SD_SATURATION_CB, u8ofInt v)]⟩) ∧
    (∀ e, bus.writeReg ADV7180_SD_SATURATION_CB (u8ofInt v) = Except.ok () →
       bus.writeReg ADV7180_SD_SATURATION_CR (u8ofInt v) = Except.error e →
       adv7180_s_ctrl bus s CtrlId.saturation v =
         ⟨s, e, [(ADV7180_SD_SATURATION_CB, u8ofInt v),
                 (ADV7180_SD_SATURATION_CR, u8ofInt v)]⟩) ∧
    (∀ e, bus.writeReg ADV7180_HUE_REG (u8ofInt (-(u8ofInt v : Int))) =
         Except.error e →
       adv7180_s_ctrl bus s CtrlId.hue v =
         ⟨s, e, [(ADV7180_HUE_REG, u8ofInt (-(u8ofInt v : Int)))]⟩) ∧
    (∀ input : Nat, adv7180_find_input input = none →
       adv7180_s_routing bus s input = ⟨s, -EINVAL, []⟩) ∧
    (∀ input advinput, adv7180_find_input input = some advinput →
       adv7180_s_routing bus s input =
         ⟨{ s with current_input := input }, 0,
          [(ADV7180_INPUT_CTL, advinput.insel)]⟩) := by
  refine ⟨?_, ?_, ?_, ?_, ?_, ?_, ?_⟩
  · intro e he
    simp [adv7180_s_ctrl, he]
  · intro e he
    simp [adv7180_s_ctrl, he]
  · intro e he
    simp [adv7180_s_ctrl, he]
  · intro e hok he
    simp [adv7180_s_ctrl, hok, he]
  · intro e he
    simp [adv7180_s_ctrl, he]
  · intro input hf
    simp [adv7180_s_routing, hf]
  · intro input advinput hf
    simp [adv7180_s_routing, hf]

/-- Witness for the amended C8: instantiates every conjunct on concrete
buses, value 10 and selectors 0x0b (invalid) and 5 (valid). -/
theorem control_surface_error_handling_witness :
    adv7180_s_ctrl busWriteFail sNtscLocked CtrlId.brightness 10 =
      ⟨sNtscLocked, -EIO_errno, [(ADV7180_BRIGHTNESS, 10)]⟩ ∧
    adv7180_s_ctrl busWriteFail sNtscLocked CtrlId.contrast 10 =
      ⟨sNtscLocked, -EIO_errno, [(ADV7180_CONTRAST, 10)]⟩ ∧
    adv7180_s_ctrl busWriteFail sNtscLocked CtrlId.saturation 10 =
      ⟨sNtscLocked, -EIO_errno, [(ADV7180_SD_SATURATION_CB, 10)]⟩ ∧
    adv7180_s_ctrl busFailCR sNtscLocked CtrlId.saturation 10 =
      ⟨sNtscLocked, -EIO_errno,
       [(ADV7180_SD_SATURATION_CB, 10), (ADV7180_SD_SATURATION_CR, 10)]⟩ ∧
    adv7180_s_ctrl busWriteFail sNtscLocked CtrlId.hue 10 =
      ⟨sNtscLocked, -EIO_errno, [(ADV7180_HUE_REG, 246)]⟩ ∧
    adv7180_s_routing busWriteFail sNtscLocked 0x0b =
      ⟨sNtscLocked, -EINVAL, []⟩ ∧
    adv7180_s_routing busAllOk sNtscLocked 5 =
      ⟨{ sNtscLocked with current_input := 5 }, 0, [(ADV7180_INPUT_CTL, 0x05)]⟩ := by
  refine ⟨?_, ?_, ?_, ?_, ?_, ?_, ?_⟩
  · exact (control_surface_error_handling busWriteFail sNtscLocked 10).1
      (-EIO_errno) rfl
  · exact (control_surface_error_handling busWriteFail sNtscLocked 10).2.1
      (-EIO_errno) rfl
  · exact (control_surface_error_handling busWriteFail sNtscLocked 10).2.2.1
      (-EIO_errno) rfl
  · exact (control_surface_error_handling busFailCR sNtscLocked 10).2.2.2.1
      (-EIO_errno) rfl rfl
  · exact (control_surface_error_handling busWriteFail sNtscLocked 10).2.2.2.2.1
      (-EIO_errno) rfl
  · exact (control_surface_error_handling busWriteFail sNtscLocked 10).2.2.2.2.2.1
      0x0b rfl
  · exact (control_surface_error_handling busAllOk sNtscLocked 10).2.2.2.2.2.2
      5 ⟨"ADV7180 Composite on Ain6", 0x05⟩ rfl

/-- Conversion to `u8` of the two's-complement negation computed by the
hue case of `adv7180_s_ctrl` equals the 8-bit negation of the original
value. -/
theorem u8ofInt_neg (v : Int) :
    u8ofInt (-(u8ofInt v : Int)) = ((-v).emod 256).toNat := by
  have hnn : (0 : Int) ≤ v.emod 256 := Int.emod_nonneg v (by norm_num)
  have hcast : ((u8ofInt v : Nat) : Int) = v.emod 256 := by
    simp [u8ofInt, Int.toNat_of_nonneg hnn]
  rw [u8ofInt, hcast]
  have hm : Int.ModEq 256 (v.emod 256) v := Int.emod_emod_of_dvd v (dvd_refl 256)
  have hneg : (-(v.emod 256)).emod 256 = (-v).emod 256 := Int.ModEq.neg hm
  rw [hneg]

/-- C9: for every requested hue value in [-127, 128], the hue setter
writes to the hue register the 8-bit two's-complement negation of the
requested value and, on success, mirrors the original (non-negated) value
into the state's `hue` field. -/
theorem hue_writes_twos_complement_negation (bus : Bus) (s : SensorState)
    (v : Int) (hlo : -127 ≤ v) (hhi : v ≤ 128) :
    (adv7180_s_ctrl bus s CtrlId.hue v).writes =
      [(ADV7180_HUE_REG, ((-v).emod 256).toNat)] ∧
    (bus.writeReg ADV7180_HUE_REG (((-v).emod 256).toNat) = Except.ok () →
       adv7180_s_ctrl bus s CtrlId.hue v =
         ⟨{ s with hue := v }, 0, [(ADV7180_HUE_REG, ((-v).emod 256).toNat)]⟩) := by
  have hw := u8ofInt_neg v
  constructor
  · simp only [adv7180_s_ctrl, hw]
    cases hok : bus.writeReg ADV7180_HUE_REG (((-v).emod 256).toNat) with
    | error e => simp [hok]
    | ok u => simp [hok]
  · intro hok
    simp only [adv7180_s_ctrl, hw]
    simp [hok]

/-- Witness for C9: requesting hue 100 writes byte 156 (the 8-bit
two's-complement of -100) and mirrors 100. -/
theorem hue_writes_twos_complement_negation_witness :
    ((-127 : Int) ≤ 100 ∧ (100 : Int) ≤ 128) ∧
    adv7180_s_ctrl busAllOk sNtscLocked CtrlId.hue 100 =
      ⟨{ sNtscLocked with hue := 100 }, 0, [(ADV7180_HUE_REG, 156)]⟩ := by
  refine ⟨⟨by norm_num, by norm_num⟩, ?_⟩
  exact (hue_writes_twos_complement_negation busAllOk sNtscLocked 100
    (by norm_num) (by norm_num)).2 rfl

/-- C10: `adv7180_power` is idempotent at the register level: with
`enable` equal to the current powered state it performs no register writes
and no power-down-line changes and leaves the state unchanged; only the
off-to-on transition (gpio high if present, 5 ms settle, power-management
write 0x00) and the on-to-off transition (power-management write 0x24,
gpio low if present) touch the hardware. -/
theorem power_idempotent_and_transitions (s : SensorState) (enable : Bool) :
    (enable = s.is_on → adv7180_power s enable = (s, [])) ∧
    (enable = true → s.is_on = false →
       adv7180_power s enable =
         ({ s with is_on := true },
          (if s.pwdn_gpio_valid then [PwrEvent.gpioSet 1] else []) ++
            [PwrEvent.sleep5ms, PwrEvent.regWrite ADV7180_PWR_MNG 0x00])) ∧
    (enable = false → s.is_on = true →
       adv7180_power s enable =
         ({ s with is_on := false },
          PwrEvent.regWrite ADV7180_PWR_MNG 0x24 ::
            (if s.pwdn_gpio_valid then [PwrEvent.gpioSet 0] else []))) := by
  refine ⟨?_, ?_, ?_⟩
  · intro h
    subst h
    cases s with
    | mk o l b hu c sa st vi fw fh ci pg =>
      cases o <;> simp [adv7180_power]
  · intro he ho
    subst he
    simp [adv7180_power, ho]
  · intro he ho
    subst he
    simp [adv7180_power, ho]

/-- Witness for C10: idempotence on an already-on device, and both
transitions on concrete states with a valid power-down line. -/
theorem power_idempotent_and_transitions_witness :
    (sNtscLocked.is_on = true ∧
      adv7180_power sNtscLocked true = (sNtscLocked, [])) ∧
    adv7180_power { sNtscLocked with is_on := false } true =
      ({ sNtscLocked with is_on := true },
       [PwrEvent.gpioSet 1, PwrEvent.sleep5ms,
        PwrEvent.regWrite ADV7180_PWR_MNG 0x00]) ∧
    adv7180_power sNtscLocked false =
      ({ sNtscLocked with is_on := false },
       [PwrEvent.regWrite ADV7180_PWR_MNG 0x24, PwrEvent.gpioSet 0]) := by
  refine ⟨⟨rfl, ?_⟩, ?_, ?_⟩
  · exact (power_idempotent_and_transitions sNtscLocked true).1 rfl
  · exact (power_idempotent_and_transitions
      { sNtscLocked with is_on := false } true).2.1 rfl rfl
  · exact (power_idempotent_and_transitions sNtscLocked false).2.2 rfl rfl
